import Mathlib

/-!
Verification development for `seq2seq/decoders/conv_decoder.py` (ConvDecoder).

The module is TensorFlow 1.x graph-construction code: every tensor operation
builds a graph node.  We embed tensors as symbolic graph expressions (`TExpr`)
and each method of `ConvDecoder` as a Lean function in the `Except PyError`
monad, so that Python-level failures (NameError for an unbound identifier,
KeyError for a missing dict key, TypeError for a bad call, IndexError) are
explicit values.  Dict accesses, name reads and calls are translated statement
by statement from the source; external helpers that live in modules outside
this file (`ConvEncoderUtils`, `beam_search`, static-shape inference) are kept
abstract as fields of a `TFEnv` record.
-/

/-- The three values of `tf.contrib.learn.ModeKeys` used by the module. -/
inductive Mode : Type
  | TRAIN
  | EVAL
  | INFER
deriving DecidableEq, Repr

/-- Python values stored in the `params` dict of the decoder. -/
inductive PVal : Type
  | int (n : Int)
  | num (q : ℚ)
  | str (s : String)
  | bool (b : Bool)
deriving DecidableEq, Repr

/-- Python truthiness, as used by `if self.params[...]`. -/
def truthy : PVal → Bool
  | PVal.int n => n != 0
  | PVal.num q => q != 0
  | PVal.str s => s != ("")
  | PVal.bool b => b

/-- The Python exceptions the module can raise while building its graph.
`loadError n` stands for the SyntaxError CPython reports for line `n`
when compiling the enclosing module. -/
inductive PyError : Type
  | nameError (name : String)
  | keyError (key : String)
  | typeError (msg : String)
  | indexError
  | loadError (line : Nat)
deriving DecidableEq, Repr

/-- Dict access `self.params[k]`: first binding wins, a missing key raises KeyError. -/
def pyLookup (params : List (String × PVal)) (k : String) : Except PyError PVal :=
  match params.find? (fun p => p.1 == k) with
  | some p => Except.ok p.2
  | none => Except.error (PyError.keyError k)

/-- The Python comparison `v > 0` on a params value: defined for ints,
floats and bools (a bool is an int in Python), a TypeError on strings. -/
def pyGtZero : PVal → Except PyError Bool
  | PVal.int n => Except.ok (decide (0 < n))
  | PVal.num q => Except.ok (decide (0 < q))
  | PVal.bool b => Except.ok b
  | PVal.str _ => Except.error (PyError.typeError ("not supported between str and int"))

/-- Reading a name that is bound nowhere in the enclosing scopes raises
NameError (the read never produces a value, hence any result type). -/
def pyUnbound (α : Type) (name : String) : Except PyError α :=
  Except.error (PyError.nameError name)

/-- Python list indexing `l[i]` for the `Int` lists produced by
`parse_list_or_default` and by static shapes. -/
def pyIndexList (l : List Int) (i : Nat) : Except PyError Int :=
  match l.get? i with
  | some v => Except.ok v
  | none => Except.error PyError.indexError

/-- Calling a Python list object, as `shape(-1)` does on line 223,
raises TypeError. -/
def pyCallListNotCallable : Except PyError Int :=
  Except.error (PyError.typeError ("list object is not callable"))

/-- Symbolic TensorFlow graph expressions: one constructor per graph-building
operation the module performs.  `dropout` records the `is_training` argument
passed to `tf.contrib.layers.dropout`; `linearMapping` and `convDecoderStack`
are the (externally defined) `ConvEncoderUtils` entry points with the
arguments the module passes to them. -/
inductive TExpr : Type
  | input (name : String)
  | shapeDim (t : TExpr) (i : Int)
  | createPositionEmbedding (embeddingDim : Int) (numPositions : PVal)
      (lengths : TExpr) (maxlen : TExpr)
  | add (x y : TExpr)
  | dropout (x : TExpr) (keepProb : PVal) (isTraining : Bool)
  | linearMapping (x : TExpr) (outDim : PVal) (dropoutKeep : Option PVal)
      (varScopeName : String)
  | convDecoderStack (inputs encOutput target : TExpr)
      (nhidsList kwidthsList : List Int) (mode : Mode)
  | transposeBatchTime (x : TExpr)
  | argmax (x : TExpr) (axis : Int)
  | castInt32 (x : TExpr)
  | sliceLastTimeStep (x : TExpr)
  | reshape (x : TExpr) (dim0 : Int)
  | embeddingLookup (table ids : TExpr)
  | posEncodingConst (numPositions : PVal) (dim : Int)
  | sliceRows (x : TExpr) (lo hi : Int)
  | tile (x : TExpr) (n : Int)
deriving DecidableEq, Repr

/-- Alias used by the source as
`logits = _transpose_batch_time(next_layer)` (line 187). -/
def _transpose_batch_time (x : TExpr) : TExpr :=
  TExpr.transposeBatchTime x

/-- A Python function value, as stored in `self._combiner_fn` after
`locate(self.params["position_embeddings.combiner_fn"])`: its number of
required positional parameters, and its meaning on a correct call. -/
structure PyFn : Type where
  nargs : Nat
  app : List TExpr → TExpr

/-- Calling a Python function with positional arguments: a call whose
argument count differs from the required parameter count raises TypeError. -/
def pyCallFn (f : PyFn) (args : List TExpr) : Except PyError TExpr :=
  if args.length = f.nargs then Except.ok (f.app args)
  else Except.error (PyError.typeError ("wrong number of arguments"))

/-- The default combiner, `tensorflow.add`: two required arguments. -/
def tensorflowAdd : PyFn where
  nargs := 2
  app := fun args =>
    TExpr.add (args.getD 0 (TExpr.input ("missing"))) (args.getD 1 (TExpr.input ("missing")))

/-- Keyword-call binding: a call binds only when every required parameter is
among the provided keywords; otherwise CPython raises TypeError before the
callee body runs. -/
def pyKwBindOk (required provided : List String) : Bool :=
  required.all (fun p => provided.contains p)

/-- The binding step of a keyword call inside a larger computation. -/
def pyBindCall (required provided : List String) : Except PyError Unit :=
  if pyKwBindOk required provided then Except.ok ()
  else Except.error (PyError.typeError ("missing required positional arguments"))

/-- The required parameters of `next_inputs` (line 244):
`def next_inputs(self, time, outputs, state, sample_ids, name=None)`. -/
def next_inputs_required_params : List String :=
  [("time"), ("outputs"), ("state"), ("sample_ids")]

/-- The keywords `step` passes on line 266:
`self.next_inputs(sample_ids=bs_output.predicted_ids)`. -/
def step_next_inputs_kwargs : List String :=
  [("sample_ids")]

/-- The beam-search config object handed to `conv_decoder_infer` and
`create_init_state`; the module reads only its `beam_size`. -/
structure BSConfig : Type where
  beam_size : Int
deriving DecidableEq, Repr

/-- External functions the module imports from other files of the repository
or obtains from TensorFlow shape inference; they are kept abstract.
`β` is the abstract type of beam-search states. -/
structure TFEnv (β : Type) : Type where
  /-- Models `t.get_shape().as_list()[-1]` -/
  embedSizeOf : TExpr → Int
  /-- Models `ConvEncoderUtils.parse_list_or_default` -/
  parseListOrDefault : PVal → PVal → PVal → List Int
  /-- Models `t.get_shape().as_list()` -/
  staticShape : TExpr → List Int
  /-- Models `beam_search.create_initial_beam_state` -/
  create_initial_beam_state : BSConfig → β
  /-- Models `beam_search.beam_search_step` -/
  beam_search_step : Int → TExpr → β → BSConfig → TExpr × β

/-- The state of a `ConvDecoder` instance after `__init__` (lines 73-93):
the configurable params, the mode, the output vocabulary size, the attention
tensors, and the located combiner function. -/
structure ConvDecoder : Type where
  params : List (String × PVal)
  mode : Mode
  vocab_size : Int
  attention_keys : TExpr
  attention_values : TExpr
  attention_values_length : TExpr
  combiner_fn : PyFn

/-- Transcribes `ConvDecoderOutput = namedtuple("ConvDecoderOutput", ["logits", "predicted_ids"])`
(line 43). -/
structure ConvDecoderOutput : Type where
  logits : TExpr
  predicted_ids : TExpr
deriving DecidableEq, Repr

/-- Transcribes `ConvDecoder.default_params` (lines 95-112) entry by entry. -/
def default_params : List (String × PVal) :=
  [ ("cnn.layers", PVal.int 3),
    ("cnn.nhids", PVal.str ("512,512,512")),
    ("cnn.kwidths", PVal.str ("3,3,3")),
    ("cnn.nhid_default", PVal.int 256),
    ("cnn.kwidth_default", PVal.int 3),
    ("embedding_dropout_keep_prob", PVal.num (0.8 : ℚ)),
    ("nhid_dropout_keep_prob", PVal.num (0.8 : ℚ)),
    ("out_dropout_keep_prob", PVal.num (0.8 : ℚ)),
    ("word_embeddings.size", PVal.int 512),
    ("position_embeddings.enable", PVal.bool true),
    ("position_embeddings.combiner_fn", PVal.str ("tensorflow.add")),
    ("position_embeddings.num_positions", PVal.int 100),
    ("init_scale", PVal.num (0.04 : ℚ)),
    ("nout_embed", PVal.int 256) ]

/-- The position-embedding block of `conv_decoder_train` (lines 152-159):
when `position_embeddings.enable` is truthy, the labels are combined with
`_create_position_embedding(embedding_dim=labels.get_shape().as_list()[-1],
num_positions=..., lengths=sequence_length, maxlen=tf.shape(labels)[1])`
through `self._combiner_fn`; otherwise the labels pass through unchanged. -/
def conv_decoder_train_embed {β : Type} (env : TFEnv β) (self : ConvDecoder)
    (labels sequence_length : TExpr) : Except PyError TExpr := do
  let embed_size := env.embedSizeOf labels
  let enableV ← pyLookup self.params ("position_embeddings.enable")
  if truthy enableV then do
    let numPos ← pyLookup self.params ("position_embeddings.num_positions")
    let positions_embed := TExpr.createPositionEmbedding embed_size numPos
      sequence_length (TExpr.shapeDim labels 1)
    pyCallFn self.combiner_fn [labels, positions_embed]
  else
    pure labels

/-- The remainder of `conv_decoder_train` after the position-embedding block
(lines 161-192): embedding dropout, the optional convolution stack, the
softmax-side linear mappings and dropout, the time-major transpose, and the
argmax sample ids. -/
def conv_decoder_train_core {β : Type} (env : TFEnv β) (self : ConvDecoder)
    (enc_output labels : TExpr) : Except PyError ConvDecoderOutput := do
  let keepE ← pyLookup self.params ("embedding_dropout_keep_prob")
  let inputs := TExpr.dropout labels keepE (self.mode == Mode.TRAIN)
  let layersV ← pyLookup self.params ("cnn.layers")
  let layersPos ← pyGtZero layersV
  let next_layer ←
    if layersPos then do
      let nhidsV ← pyLookup self.params ("cnn.nhids")
      let nhidDefault ← pyLookup self.params ("cnn.nhid_default")
      let kwidthsV ← pyLookup self.params ("cnn.kwidths")
      let kwidthDefault ← pyLookup self.params ("cnn.kwidth_default")
      let nhids_list := env.parseListOrDefault nhidsV layersV nhidDefault
      let kwidths_list := env.parseListOrDefault kwidthsV layersV kwidthDefault
      let nhid0 ← pyIndexList nhids_list 0
      let keepE2 ← pyLookup self.params ("embedding_dropout_keep_prob")
      let mapped := TExpr.linearMapping inputs (PVal.int nhid0) (some keepE2)
        ("linear_mapping_before_cnn")
      pure (TExpr.convDecoderStack inputs enc_output mapped nhids_list kwidths_list self.mode)
    else
      pure inputs
  let noutV ← pyLookup self.params ("nout_embed")
  let afterCnn := TExpr.linearMapping next_layer noutV none ("linear_mapping_after_cnn")
  let keepO ← pyLookup self.params ("out_dropout_keep_prob")
  let afterDrop := TExpr.dropout afterCnn keepO (self.mode == Mode.TRAIN)
  let beforeSoftmax := TExpr.linearMapping afterDrop (PVal.int self.vocab_size) (some keepO)
    ("logits_before_softmax")
  let logits := _transpose_batch_time beforeSoftmax
  let sample_ids := TExpr.castInt32 (TExpr.argmax logits (-1))
  pure { logits := logits, predicted_ids := sample_ids }

/-- Method `conv_decoder_train` (lines 146-192): the position-embedding block
followed by the dropout/convolution/softmax pipeline.  The `decoder`
argument is passed by `_build` and never used (the isinstance check on it
is commented out in the source). -/
def conv_decoder_train {β : Type} (env : TFEnv β) (self : ConvDecoder)
    (decoder : ConvDecoder) (enc_output labels sequence_length : TExpr) :
    Except PyError ConvDecoderOutput := do
  let labels2 ← conv_decoder_train_embed env self labels sequence_length
  conv_decoder_train_core env self enc_output labels2

/-- The embedding dropout applied by `infer_conv_block` (lines 197-200):
`is_training` is `self.mode == ModeKeys.INFER`. -/
def infer_embed_dropout (self : ConvDecoder) (input_embed : TExpr) :
    Except PyError TExpr := do
  let keepE ← pyLookup self.params ("embedding_dropout_keep_prob")
  pure (TExpr.dropout input_embed keepE (self.mode == Mode.INFER))

/-- The output-side dropout applied by `infer_conv_block` (lines 215-218):
`is_training` is `self.mode == ModeKeys.INFER`. -/
def infer_out_dropout (self : ConvDecoder) (x : TExpr) : Except PyError TExpr := do
  let keepO ← pyLookup self.params ("out_dropout_keep_prob")
  pure (TExpr.dropout x keepO (self.mode == Mode.INFER))

/-- Method `infer_conv_block` (lines 195-224).  Two statements cannot complete:
line 211 evaluates the name `inputs`, which is bound nowhere in this function
(NameError, reached whenever `cnn.layers > 0`), and line 223 evaluates
`shape(-1)`, which calls the Python list `shape` (TypeError, reached when
the convolution branch is skipped). -/
def infer_conv_block {β : Type} (env : TFEnv β) (self : ConvDecoder)
    (enc_output input_embed : TExpr) : Except PyError TExpr := do
  let dropped ← infer_embed_dropout self input_embed
  let layersV ← pyLookup self.params ("cnn.layers")
  let layersPos ← pyGtZero layersV
  let next_layer ←
    if layersPos then do
      let nhidsV ← pyLookup self.params ("cnn.nhids")
      let nhidDefault ← pyLookup self.params ("cnn.nhid_default")
      let kwidthsV ← pyLookup self.params ("cnn.kwidths")
      let kwidthDefault ← pyLookup self.params ("cnn.kwidth_default")
      let nhids_list := env.parseListOrDefault nhidsV layersV nhidDefault
      let kwidths_list := env.parseListOrDefault kwidthsV layersV kwidthDefault
      let nhid0 ← pyIndexList nhids_list 0
      let keepE2 ← pyLookup self.params ("embedding_dropout_keep_prob")
      let mapped := TExpr.linearMapping dropped (PVal.int nhid0) (some keepE2)
        ("linear_mapping_before_cnn")
      let inputs ← pyUnbound TExpr ("inputs")
      pure (TExpr.convDecoderStack inputs enc_output mapped nhids_list kwidths_list self.mode)
    else
      pure dropped
  let noutV ← pyLookup self.params ("nout_embed")
  let afterCnn := TExpr.linearMapping (TExpr.sliceLastTimeStep next_layer) noutV none
    ("linear_mapping_after_cnn")
  let afterDrop ← infer_out_dropout self afterCnn
  let keepO ← pyLookup self.params ("out_dropout_keep_prob")
  let beforeSoftmax := TExpr.linearMapping afterDrop (PVal.int self.vocab_size) (some keepO)
    ("logits_before_softmax")
  let shape := env.staticShape beforeSoftmax
  let dim0 ← pyIndexList shape 0
  let _ ← pyCallListNotCallable
  pure (TExpr.reshape beforeSoftmax dim0)

/-- Method `create_init_state` (lines 227-242).  Its header on line 227 lacks the
terminating colon (see `srcLine227`); the body is modelled under Python
semantics as if the header parsed.  When `position_embeddings.enable` is
falsy, line 238 reads `positions_embed`, which was never assigned
(NameError); line 241 calls the combiner with a single argument. -/
def create_init_state {β : Type} (env : TFEnv β) (self : ConvDecoder)
    (config : BSConfig) (target_embedding start_tokens : TExpr) :
    Except PyError (TExpr × β) := do
  let beam_state := env.create_initial_beam_state config
  let start_embedded := TExpr.embeddingLookup target_embedding start_tokens
  let embed_size := env.embedSizeOf start_embedded
  let enableV ← pyLookup self.params ("position_embeddings.enable")
  let positions_embed ←
    if truthy enableV then do
      let numPos ← pyLookup self.params ("position_embeddings.num_positions")
      pure (TExpr.posEncodingConst numPos embed_size)
    else
      pyUnbound TExpr ("positions_embed")
  let start_pos_embed := TExpr.sliceRows positions_embed 0 1
  let _start_pos_embed_batch := TExpr.tile start_pos_embed config.beam_size
  let input_embed ← pyCallFn self.combiner_fn [TExpr.add start_embedded start_pos_embed]
  pure (input_embed, beam_state)

/-- Method `step` (lines 256-269).  Its first statement (line 258) evaluates the
name `enc_output`, which is bound nowhere in `step`; line 264 likewise
evaluates the unbound name `config`; line 266 calls `next_inputs` with only
the `sample_ids` keyword.  The tuple returned on line 269 is unreachable
(every run stops at line 258); its `next_inputs` component is modelled by
the beam-search output placeholder. -/
def step {β : Type} (env : TFEnv β) (self : ConvDecoder) (time_ : Int)
    (inputs : TExpr) (beam_state : β) : Except PyError (TExpr × TExpr × β) := do
  let enc_output ← pyUnbound TExpr ("enc_output")
  let logits ← infer_conv_block env self enc_output inputs
  let config ← pyUnbound BSConfig ("config")
  let (bs_output, beam_state2) := env.beam_search_step time_ logits beam_state config
  let _ ← pyBindCall next_inputs_required_params step_next_inputs_kwargs
  pure (bs_output, bs_output, beam_state2)

/-- Method `conv_decoder_infer` (lines 271-298).  Its body is not Python: line 278
is the pseudocode statement `WHILE:` (see `srcLine278`), so CPython cannot
compile the enclosing module, and any attempt to use this function fails at
module load.  (Even with that repaired, line 273 reads the bare name
`create_init_state`, which is a method and not in scope, and line 295 reads
`logits`, which this function never binds.) -/
def conv_decoder_infer {β : Type} (env : TFEnv β) (self decoder : ConvDecoder)
    (enc_output target_embedding start_tokens : TExpr) (config : BSConfig) :
    Except PyError ConvDecoderOutput :=
  Except.error (PyError.loadError 278)

/-- Method `_build` (lines 304-315): in INFER mode, read
`params["max_decode_length"]` into `maximum_iterations` and take the
inference path; in every other mode take the teacher-forced training path;
either way return the outputs twice. -/
def _build {β : Type} (env : TFEnv β) (self : ConvDecoder)
    (enc_output labels sequence_length target_embedding start_tokens : TExpr)
    (config : BSConfig) : Except PyError (ConvDecoderOutput × ConvDecoderOutput) := do
  if self.mode == Mode.INFER then
    let _maximum_iterations ← pyLookup self.params ("max_decode_length")
    let outputs ← conv_decoder_infer env self self enc_output target_embedding
      start_tokens config
    pure (outputs, outputs)
  else
    let outputs ← conv_decoder_train env self self enc_output labels sequence_length
    pure (outputs, outputs)

/-- The `is_training` flags of every `dropout` node in a graph expression. -/
def dropoutFlags : TExpr → List Bool
  | TExpr.input _ => []
  | TExpr.shapeDim t _ => dropoutFlags t
  | TExpr.createPositionEmbedding _ _ l m => dropoutFlags l ++ dropoutFlags m
  | TExpr.add x y => dropoutFlags x ++ dropoutFlags y
  | TExpr.dropout x _ tr => tr :: dropoutFlags x
  | TExpr.linearMapping x _ _ _ => dropoutFlags x
  | TExpr.convDecoderStack a b c _ _ _ => dropoutFlags a ++ dropoutFlags b ++ dropoutFlags c
  | TExpr.transposeBatchTime x => dropoutFlags x
  | TExpr.argmax x _ => dropoutFlags x
  | TExpr.castInt32 x => dropoutFlags x
  | TExpr.sliceLastTimeStep x => dropoutFlags x
  | TExpr.reshape x _ => dropoutFlags x
  | TExpr.embeddingLookup a b => dropoutFlags a ++ dropoutFlags b
  | TExpr.posEncodingConst _ _ => []
  | TExpr.sliceRows x _ _ => dropoutFlags x
  | TExpr.tile x _ => dropoutFlags x

/-- Structural test: the expression is the time-major transpose of a
`linear_mapping` whose output size is the vocabulary size, built in the
`logits_before_softmax` variable scope. -/
def finalLinearToVocab (t : TExpr) (vocab : Int) : Bool :=
  match t with
  | TExpr.transposeBatchTime (TExpr.linearMapping _ outDim _ scopeName) =>
      outDim == PVal.int vocab && scopeName == ("logits_before_softmax")
  | _ => false

/-- Whether a computation ended in a NameError. -/
def isNameErrorResult {α : Type} : Except PyError α → Bool
  | Except.error (PyError.nameError _) => true
  | _ => false

/-- Whether a computation ended in a TypeError. -/
def isTypeErrorResult {α : Type} : Except PyError α → Bool
  | Except.error (PyError.typeError _) => true
  | _ => false

/-- Whether a computation returned a value. -/
def isOkResult {α : Type} : Except PyError α → Bool
  | Except.ok _ => true
  | _ => false

/-- Modelled from the spec: the run-time behaviour of
`tf.contrib.layers.dropout`, whose implementation lives in TensorFlow and not
in this repository.  With `is_training = false` the layer is the identity;
with `is_training = true` each element is kept (rescaled by `1/keep_prob`)
or zeroed according to a sampled random mask. -/
def runDropout (keepProb : ℚ) (isTraining : Bool) (mask : Nat → Bool)
    (x : Nat → ℚ) (i : Nat) : ℚ :=
  if isTraining then (if mask i then x i / keepProb else 0) else x i

/-- Line 227 of the source, exactly as written: the `def create_init_state`
header without its terminating colon. -/
def srcLine227 : String :=
  "  def create_init_state(self, config, target_embedding, start_tokens)"

/-- Line 278 of the source, exactly as written: the pseudocode statement
`WHILE:`. -/
def srcLine278 : String :=
  "    WHILE:"

/-- The keywords that may open a block (end a line with a bare colon) in
Python 2/3 source. -/
def pythonBlockKeywords : List (List Char) :=
  [("if").data, ("elif").data, ("else").data, ("for").data, ("while").data,
   ("with").data, ("def").data, ("class").data, ("try").data, ("except").data,
   ("finally").data, ("async").data]

/-- Strip trailing spaces from a line. -/
def trimRightChars (l : List Char) : List Char :=
  ((l.reverse).dropWhile (fun c => c == ' ')).reverse

/-- Strip leading and trailing spaces from a line. -/
def trimChars (l : List Char) : List Char :=
  (trimRightChars l).dropWhile (fun c => c == ' ')

/-- The leading identifier of a line. -/
def firstWordChars (l : List Char) : List Char :=
  (trimChars l).takeWhile (fun c => c.isAlpha)

/-- Whether the line, trailing spaces ignored, ends in a colon. -/
def endsWithColon (l : List Char) : Bool :=
  match (trimRightChars l).reverse with
  | c :: _ => c == ':'
  | [] => false

/-- Necessary condition for CPython to accept a line that begins a `def`
and closes its parentheses on the same line: it must end with a colon. -/
def defLineOk (s : String) : Bool :=
  !(firstWordChars s.data == ("def").data) || endsWithColon s.data

/-- Necessary condition for CPython to accept a line that ends in a bare
colon: it must open a block, i.e. begin with a compound-statement keyword
(a lone `NAME:` is an annotation statement and needs a nonempty annotation
after the colon). -/
def colonLineOk (s : String) : Bool :=
  !(endsWithColon s.data) || pythonBlockKeywords.contains (firstWordChars s.data)

/-- Both necessary conditions at once. -/
def lineOk (s : String) : Bool :=
  defLineOk s && colonLineOk s

/-- CPython compiles a module only if every line passes the necessary
conditions; for this module the two lines embedded above already decide it. -/
def moduleLinesOk : Bool :=
  lineOk srcLine227 && lineOk srcLine278

/-- Concrete environment used to instantiate theorems, with `Unit` as the
beam-state type. -/
def envU : TFEnv Unit where
  embedSizeOf := fun _ => 4
  parseListOrDefault := fun _ _ _ => [8, 8, 8]
  staticShape := fun _ => [2, 5]
  create_initial_beam_state := fun _ => ()
  beam_search_step := fun _ l b _ => (l, b)

/-- A small params dict with the convolution stack disabled and position
embeddings off. -/
def paramsNoCnn : List (String × PVal) :=
  [ ("position_embeddings.enable", PVal.bool false),
    ("embedding_dropout_keep_prob", PVal.int 1),
    ("cnn.layers", PVal.int 0),
    ("nout_embed", PVal.int 7),
    ("out_dropout_keep_prob", PVal.int 1) ]

/-- A TRAIN-mode decoder over `paramsNoCnn`. -/
def selfTrainNoCnn : ConvDecoder where
  params := paramsNoCnn
  mode := Mode.TRAIN
  vocab_size := 9
  attention_keys := TExpr.input ("attention_keys")
  attention_values := TExpr.input ("attention_values")
  attention_values_length := TExpr.input ("attention_values_length")
  combiner_fn := tensorflowAdd

/-- An INFER-mode decoder over `paramsNoCnn`. -/
def selfInferNoCnn : ConvDecoder where
  params := paramsNoCnn
  mode := Mode.INFER
  vocab_size := 9
  attention_keys := TExpr.input ("attention_keys")
  attention_values := TExpr.input ("attention_values")
  attention_values_length := TExpr.input ("attention_values_length")
  combiner_fn := tensorflowAdd

/-- An INFER-mode decoder configured only by `default_params`. -/
def selfInferDefault : ConvDecoder where
  params := default_params
  mode := Mode.INFER
  vocab_size := 9
  attention_keys := TExpr.input ("attention_keys")
  attention_values := TExpr.input ("attention_values")
  attention_values_length := TExpr.input ("attention_values_length")
  combiner_fn := tensorflowAdd

/-- A TRAIN-mode decoder configured only by `default_params`. -/
def selfTrainDefault : ConvDecoder where
  params := default_params
  mode := Mode.TRAIN
  vocab_size := 9
  attention_keys := TExpr.input ("attention_keys")
  attention_values := TExpr.input ("attention_values")
  attention_values_length := TExpr.input ("attention_values_length")
  combiner_fn := tensorflowAdd

/-- An INFER-mode decoder whose params add `max_decode_length` on top of
`default_params`. -/
def selfInferWithMax : ConvDecoder where
  params := ("max_decode_length", PVal.int 10) :: default_params
  mode := Mode.INFER
  vocab_size := 9
  attention_keys := TExpr.input ("attention_keys")
  attention_values := TExpr.input ("attention_values")
  attention_values_length := TExpr.input ("attention_values_length")
  combiner_fn := tensorflowAdd

/-- The logits graph `conv_decoder_train` builds over `selfTrainNoCnn` for a
placeholder labels tensor. -/
def trainLogitsNoCnn : TExpr :=
  TExpr.transposeBatchTime
    (TExpr.linearMapping
      (TExpr.dropout
        (TExpr.linearMapping
          (TExpr.dropout (TExpr.input ("labels")) (PVal.int 1) true)
          (PVal.int 7) none ("linear_mapping_after_cnn"))
        (PVal.int 1) true)
      (PVal.int 9) (some (PVal.int 1)) ("logits_before_softmax"))

/-- The full `ConvDecoderOutput` for the same run. -/
def trainOutNoCnn : ConvDecoderOutput where
  logits := trainLogitsNoCnn
  predicted_ids := TExpr.castInt32 (TExpr.argmax trainLogitsNoCnn (-1))

/-- An all-pass dropout mask. -/
def maskKeepAll : Nat → Bool := fun _ => true

/-- An all-drop dropout mask. -/
def maskDropAll : Nat → Bool := fun _ => false

/-- A constant input vector for the dropout run model. -/
def onesVec : Nat → ℚ := fun _ => 1

theorem except_bind_ok {α γ : Type} (a : α) (f : α → Except PyError γ) :
    (Except.ok a >>= f : Except PyError γ) = f a := rfl

theorem except_bind_error {α γ : Type} (er : PyError) (f : α → Except PyError γ) :
    ((Except.error er : Except PyError α) >>= f) = Except.error er := rfl

theorem except_pure_bind {α γ : Type} (a : α) (f : α → Except PyError γ) :
    ((pure a : Except PyError α) >>= f) = f a := rfl

theorem conv_decoder_train_split {β : Type} (env : TFEnv β) (self decoder : ConvDecoder)
    (enc_output labels sequence_length : TExpr) :
    conv_decoder_train env self decoder enc_output labels sequence_length =
      conv_decoder_train_embed env self labels sequence_length >>=
        conv_decoder_train_core env self enc_output := rfl

theorem build_infer_eq {β : Type} (env : TFEnv β) (self : ConvDecoder)
    (e L sl te st : TExpr) (cfg : BSConfig) (hm : self.mode = Mode.INFER) :
    _build env self e L sl te st cfg =
      pyLookup self.params ("max_decode_length") >>= fun _ =>
        Except.map (fun o => (o, o)) (conv_decoder_infer env self self e te st cfg) := by
  unfold _build
  rw [hm]
  rfl

theorem build_not_infer_eq {β : Type} (env : TFEnv β) (self : ConvDecoder)
    (e L sl te st : TExpr) (cfg : BSConfig) (hm : self.mode ≠ Mode.INFER) :
    _build env self e L sl te st cfg =
      Except.map (fun o => (o, o)) (conv_decoder_train env self self e L sl) := by
  unfold _build
  rw [beq_eq_false_iff_ne.mpr hm]
  cases hx : conv_decoder_train env self self e L sl with
  | error er => simp [hx, except_bind_error, Except.map]
  | ok o => simp [hx, except_bind_ok, Except.map]

theorem step_always_nameError {β : Type} (env : TFEnv β) (self : ConvDecoder)
    (time_ : Int) (inputs : TExpr) (beam_state : β) :
    step env self time_ inputs beam_state =
      Except.error (PyError.nameError ("enc_output")) := rfl

/-- C1: `_build` dispatches on the mode: in INFER mode it reads
`params["max_decode_length"]` into `maximum_iterations` and produces the
outputs with `conv_decoder_infer`; in every other mode it produces them with
`conv_decoder_train` applied to the labels and the sequence length. -/
theorem c1_build_dispatch : ∀ (β : Type) (env : TFEnv β) (self : ConvDecoder)
    (e L sl te st : TExpr) (cfg : BSConfig),
    (self.mode = Mode.INFER →
      _build env self e L sl te st cfg =
        pyLookup self.params ("max_decode_length") >>= fun _ =>
          Except.map (fun o => (o, o)) (conv_decoder_infer env self self e te st cfg)) ∧
    (self.mode ≠ Mode.INFER →
      _build env self e L sl te st cfg =
        Except.map (fun o => (o, o)) (conv_decoder_train env self self e L sl)) :=
  fun β env self e L sl te st cfg =>
    ⟨build_infer_eq env self e L sl te st cfg,
     build_not_infer_eq env self e L sl te st cfg⟩

/-- Witness for C1 at concrete decoders: one in INFER mode (with a
`max_decode_length` entry), one in TRAIN mode. -/
theorem c1_build_dispatch_witness :
    (_build envU selfInferWithMax (TExpr.input ("e")) (TExpr.input ("l"))
        (TExpr.input ("sl")) (TExpr.input ("te")) (TExpr.input ("st")) (BSConfig.mk 3) =
      pyLookup selfInferWithMax.params ("max_decode_length") >>= fun _ =>
        Except.map (fun o => (o, o))
          (conv_decoder_infer envU selfInferWithMax selfInferWithMax (TExpr.input ("e"))
            (TExpr.input ("te")) (TExpr.input ("st")) (BSConfig.mk 3))) ∧
    (_build envU selfTrainNoCnn (TExpr.input ("e")) (TExpr.input ("l"))
        (TExpr.input ("sl")) (TExpr.input ("te")) (TExpr.input ("st")) (BSConfig.mk 3) =
      Except.map (fun o => (o, o))
        (conv_decoder_train envU selfTrainNoCnn selfTrainNoCnn (TExpr.input ("e"))
          (TExpr.input ("l")) (TExpr.input ("sl")))) :=
  ⟨(c1_build_dispatch Unit envU selfInferWithMax (TExpr.input ("e")) (TExpr.input ("l"))
      (TExpr.input ("sl")) (TExpr.input ("te")) (TExpr.input ("st")) (BSConfig.mk 3)).1 rfl,
   (c1_build_dispatch Unit envU selfTrainNoCnn (TExpr.input ("e")) (TExpr.input ("l"))
      (TExpr.input ("sl")) (TExpr.input ("te")) (TExpr.input ("st")) (BSConfig.mk 3)).2
      (by decide)⟩

/-- C5: the module cannot be parsed: line 278 is the pseudocode statement
`WHILE:` (not a block-opening keyword, and an annotation statement needs a
nonempty annotation), and the `def create_init_state` header on line 227
lacks its terminating colon; consequently CPython refuses the module and the
inference entry point is not executable. -/
theorem c5_module_not_parseable :
    lineOk srcLine227 = false ∧ lineOk srcLine278 = false ∧ moduleLinesOk = false ∧
    (∀ (β : Type) (env : TFEnv β) (self decoder : ConvDecoder) (e te st : TExpr)
      (cfg : BSConfig),
      conv_decoder_infer env self decoder e te st cfg =
        Except.error (PyError.loadError 278)) :=
  ⟨by decide, by decide, by decide, fun β env self decoder e te st cfg => rfl⟩

/-- C7: no inference call produces beam-search outputs: `conv_decoder_infer`
fails at module load (its body contains the non-Python statement `WHILE:` on
line 278), it never returns a `ConvDecoderOutput`, and even the single beam
step it sketches stops at once with a NameError on the unbound `enc_output`. -/
theorem c7_infer_never_returns :
    (∀ (β : Type) (env : TFEnv β) (self decoder : ConvDecoder) (e te st : TExpr)
      (cfg : BSConfig),
      conv_decoder_infer env self decoder e te st cfg =
        Except.error (PyError.loadError 278)) ∧
    (∀ (β : Type) (env : TFEnv β) (self decoder : ConvDecoder) (e te st : TExpr)
      (cfg : BSConfig),
      isOkResult (conv_decoder_infer env self decoder e te st cfg) = false) ∧
    (∀ (β : Type) (env : TFEnv β) (self : ConvDecoder) (t : Int) (i : TExpr) (b : β),
      step env self t i b = Except.error (PyError.nameError ("enc_output"))) :=
  ⟨fun β env self decoder e te st cfg => rfl,
   fun β env self decoder e te st cfg => rfl,
   fun β env self t i b => step_always_nameError env self t i b⟩

/-- C8: with only `default_params`, `_build` in INFER mode raises KeyError
on `max_decode_length` before any decoding; the training branch never reads
that key and simply wraps the `conv_decoder_train` result. -/
theorem c8_infer_default_params_keyerror : ∀ (β : Type) (env : TFEnv β)
    (self : ConvDecoder) (e L sl te st : TExpr) (cfg : BSConfig),
    self.params = default_params →
    (self.mode = Mode.INFER →
      _build env self e L sl te st cfg =
        Except.error (PyError.keyError ("max_decode_length"))) ∧
    (self.mode ≠ Mode.INFER →
      _build env self e L sl te st cfg =
        Except.map (fun o => (o, o)) (conv_decoder_train env self self e L sl)) := by
  intro β env self e L sl te st cfg hp
  constructor
  · intro hm
    rw [build_infer_eq env self e L sl te st cfg hm, hp]
    rfl
  · intro hm
    exact build_not_infer_eq env self e L sl te st cfg hm

/-- Witness for C8 at concrete decoders configured by `default_params`. -/
theorem c8_infer_default_params_keyerror_witness :
    (_build envU selfInferDefault (TExpr.input ("e")) (TExpr.input ("l"))
        (TExpr.input ("sl")) (TExpr.input ("te")) (TExpr.input ("st")) (BSConfig.mk 3) =
      Except.error (PyError.keyError ("max_decode_length"))) ∧
    (_build envU selfTrainDefault (TExpr.input ("e")) (TExpr.input ("l"))
        (TExpr.input ("sl")) (TExpr.input ("te")) (TExpr.input ("st")) (BSConfig.mk 3) =
      Except.map (fun o => (o, o))
        (conv_decoder_train envU selfTrainDefault selfTrainDefault (TExpr.input ("e"))
          (TExpr.input ("l")) (TExpr.input ("sl")))) :=
  ⟨(c8_infer_default_params_keyerror Unit envU selfInferDefault (TExpr.input ("e"))
      (TExpr.input ("l")) (TExpr.input ("sl")) (TExpr.input ("te")) (TExpr.input ("st"))
      (BSConfig.mk 3) rfl).1 rfl,
   (c8_infer_default_params_keyerror Unit envU selfTrainDefault (TExpr.input ("e"))
      (TExpr.input ("l")) (TExpr.input ("sl")) (TExpr.input ("te")) (TExpr.input ("st"))
      (BSConfig.mk 3) rfl).2 (by decide)⟩

/-- C10: whenever `_build` returns, the returned pair consists of the same
outputs object twice. -/
theorem c10_build_duplicated_outputs : ∀ (β : Type) (env : TFEnv β) (self : ConvDecoder)
    (e L sl te st : TExpr) (cfg : BSConfig) (p : ConvDecoderOutput × ConvDecoderOutput),
    _build env self e L sl te st cfg = Except.ok p → p.1 = p.2 := by
  intro β env self e L sl te st cfg p h
  by_cases hm : self.mode = Mode.INFER
  · rw [build_infer_eq env self e L sl te st cfg hm] at h
    cases hx : pyLookup self.params ("max_decode_length") with
    | error er => rw [hx, except_bind_error] at h; exact absurd h (by simp)
    | ok v =>
      rw [hx, except_bind_ok] at h
      simp [conv_decoder_infer, Except.map] at h
  · rw [build_not_infer_eq env self e L sl te st cfg hm] at h
    cases hx : conv_decoder_train env self self e L sl with
    | error er => rw [hx] at h; exact absurd h (by simp [Except.map])
    | ok o =>
      rw [hx] at h
      simp only [Except.map, Except.ok.injEq] at h
      rw [← h]

/-- Witness for C10 at a concrete TRAIN-mode run that succeeds. -/
theorem c10_build_duplicated_outputs_witness :
    (trainOutNoCnn, trainOutNoCnn).1 = (trainOutNoCnn, trainOutNoCnn).2 :=
  c10_build_duplicated_outputs Unit envU selfTrainNoCnn (TExpr.input ("e"))
    (TExpr.input ("labels")) (TExpr.input ("sl")) (TExpr.input ("te"))
    (TExpr.input ("st")) (BSConfig.mk 3) (trainOutNoCnn, trainOutNoCnn) rfl

theorem conv_decoder_train_core_shape {β : Type} (env : TFEnv β) (self : ConvDecoder)
    (e L : TExpr) (out : ConvDecoderOutput)
    (h : conv_decoder_train_core env self e L = Except.ok out) :
    ∃ (keepE noutV keepO : PVal) (nl : TExpr),
      pyLookup self.params ("embedding_dropout_keep_prob") = Except.ok keepE ∧
      pyLookup self.params ("nout_embed") = Except.ok noutV ∧
      pyLookup self.params ("out_dropout_keep_prob") = Except.ok keepO ∧
      (nl = TExpr.dropout L keepE (self.mode == Mode.TRAIN) ∨
        (∃ (nhid0 : Int) (nh kw : List Int),
          nl = TExpr.convDecoderStack (TExpr.dropout L keepE (self.mode == Mode.TRAIN)) e
            (TExpr.linearMapping (TExpr.dropout L keepE (self.mode == Mode.TRAIN))
              (PVal.int nhid0) (some keepE) ("linear_mapping_before_cnn"))
            nh kw self.mode)) ∧
      out.logits = TExpr.transposeBatchTime
        (TExpr.linearMapping
          (TExpr.dropout (TExpr.linearMapping nl noutV none ("linear_mapping_after_cnn"))
            keepO (self.mode == Mode.TRAIN))
          (PVal.int self.vocab_size) (some keepO) ("logits_before_softmax")) ∧
      out.predicted_ids = TExpr.castInt32 (TExpr.argmax out.logits (-1)) := by
  unfold conv_decoder_train_core at h
  simp only [] at h
  cases h1 : pyLookup self.params ("embedding_dropout_keep_prob") with
  | error er => rw [h1, except_bind_error] at h; exact absurd h (by simp)
  | ok keepE =>
  rw [h1, except_bind_ok] at h
  cases h2 : pyLookup self.params ("cnn.layers") with
  | error er => rw [h2, except_bind_error] at h; exact absurd h (by simp)
  | ok layersV =>
  rw [h2, except_bind_ok] at h
  cases h3 : pyGtZero layersV with
  | error er => rw [h3, except_bind_error] at h; exact absurd h (by simp)
  | ok layersPos =>
  rw [h3, except_bind_ok] at h
  cases layersPos with
  | true =>
    rw [if_pos rfl] at h
    cases h4 : pyLookup self.params ("cnn.nhids") with
    | error er => rw [h4, except_bind_error] at h; exact absurd h (by simp)
    | ok nhidsV =>
    rw [h4, except_bind_ok] at h
    cases h5 : pyLookup self.params ("cnn.nhid_default") with
    | error er => rw [h5, except_bind_error] at h; exact absurd h (by simp)
    | ok nhidDefault =>
    rw [h5, except_bind_ok] at h
    cases h6 : pyLookup self.params ("cnn.kwidths") with
    | error er => rw [h6, except_bind_error] at h; exact absurd h (by simp)
    | ok kwidthsV =>
    rw [h6, except_bind_ok] at h
    cases h7 : pyLookup self.params ("cnn.kwidth_default") with
    | error er => rw [h7, except_bind_error] at h; exact absurd h (by simp)
    | ok kwidthDefault =>
    rw [h7, except_bind_ok] at h
    cases h8 : pyIndexList (env.parseListOrDefault nhidsV layersV nhidDefault) 0 with
    | error er => rw [h8, except_bind_error] at h; exact absurd h (by simp)
    | ok nhid0 =>
    rw [h8, except_bind_ok, except_bind_ok, except_pure_bind] at h
    cases h9 : pyLookup self.params ("nout_embed") with
    | error er => rw [h9, except_bind_error] at h; exact absurd h (by simp)
    | ok noutV =>
    rw [h9, except_bind_ok] at h
    cases h10 : pyLookup self.params ("out_dropout_keep_prob") with
    | error er => rw [h10, except_bind_error] at h; exact absurd h (by simp)
    | ok keepO =>
    rw [h10, except_bind_ok] at h
    simp only [pure, Except.pure, Except.ok.injEq] at h
    refine ⟨keepE, noutV, keepO, _, rfl, rfl, rfl,
      Or.inr ⟨nhid0, env.parseListOrDefault nhidsV layersV nhidDefault,
        env.parseListOrDefault kwidthsV layersV kwidthDefault, rfl⟩, ?_, ?_⟩
    · rw [← h]; rfl
    · rw [← h]
  | false =>
    rw [if_neg (by simp)] at h
    rw [except_pure_bind] at h
    cases h9 : pyLookup self.params ("nout_embed") with
    | error er => rw [h9, except_bind_error] at h; exact absurd h (by simp)
    | ok noutV =>
    rw [h9, except_bind_ok] at h
    cases h10 : pyLookup self.params ("out_dropout_keep_prob") with
    | error er => rw [h10, except_bind_error] at h; exact absurd h (by simp)
    | ok keepO =>
    rw [h10, except_bind_ok] at h
    simp only [pure, Except.pure, Except.ok.injEq] at h
    refine ⟨keepE, noutV, keepO, TExpr.dropout L keepE (self.mode == Mode.TRAIN),
      rfl, rfl, rfl, Or.inl rfl, ?_, ?_⟩
    · rw [← h]; rfl
    · rw [← h]

/-- C2: every successful `conv_decoder_train` run returns logits that are the
time-major transpose of the final `linear_mapping` to `vocab_size` units, and
predicted ids that are the int32 cast of the argmax of those logits over the
last axis — a deterministic function of the logits. -/
theorem c2_train_logits_argmax : ∀ (β : Type) (env : TFEnv β)
    (self decoder : ConvDecoder) (e L sl : TExpr) (out : ConvDecoderOutput),
    conv_decoder_train env self decoder e L sl = Except.ok out →
    finalLinearToVocab out.logits self.vocab_size = true ∧
    out.predicted_ids = TExpr.castInt32 (TExpr.argmax out.logits (-1)) := by
  intro β env self decoder e L sl out h
  rw [conv_decoder_train_split] at h
  cases hsp : conv_decoder_train_embed env self L sl with
  | error er => rw [hsp, except_bind_error] at h; exact absurd h (by simp)
  | ok L2 =>
    rw [hsp, except_bind_ok] at h
    obtain ⟨keepE, noutV, keepO, nl, h1, h2, h3, hnl, hlog, hids⟩ :=
      conv_decoder_train_core_shape env self e L2 out h
    refine ⟨?_, hids⟩
    rw [hlog]
    simp [finalLinearToVocab]

/-- Witness for C2 at a concrete successful TRAIN-mode run. -/
theorem c2_train_logits_argmax_witness :
    finalLinearToVocab trainOutNoCnn.logits selfTrainNoCnn.vocab_size = true ∧
    trainOutNoCnn.predicted_ids =
      TExpr.castInt32 (TExpr.argmax trainOutNoCnn.logits (-1)) :=
  c2_train_logits_argmax Unit envU selfTrainNoCnn selfTrainNoCnn (TExpr.input ("enc"))
    (TExpr.input ("labels")) (TExpr.input ("sl")) trainOutNoCnn rfl

/-- C3 (amended): `infer_conv_block` raises NameError on the unbound name
`inputs` whenever `cnn.layers > 0` (as under `default_params`; with the
convolution branch disabled it instead raises TypeError at `shape(-1)`);
every call of `step` raises NameError on the unbound name `enc_output` in
its first statement (the unbound `config` on line 264 is never reached);
`create_init_state` raises NameError on `positions_embed` whenever
`position_embeddings.enable` is falsy. -/
theorem c3_unbound_names :
    (∀ (β : Type) (env : TFEnv β) (self : ConvDecoder) (e x : TExpr),
      self.params = default_params →
      env.parseListOrDefault (PVal.str ("512,512,512")) (PVal.int 3) (PVal.int 256) ≠ [] →
      infer_conv_block env self e x = Except.error (PyError.nameError ("inputs"))) ∧
    (∀ (β : Type) (env : TFEnv β) (self : ConvDecoder) (t : Int) (i : TExpr) (b : β),
      step env self t i b = Except.error (PyError.nameError ("enc_output"))) ∧
    (∀ (β : Type) (env : TFEnv β) (self : ConvDecoder) (cfg : BSConfig) (te st : TExpr)
      (v : PVal),
      pyLookup self.params ("position_embeddings.enable") = Except.ok v →
      truthy v = false →
      create_init_state env self cfg te st =
        Except.error (PyError.nameError ("positions_embed"))) := by
  refine ⟨?_, fun β env self t i b => step_always_nameError env self t i b, ?_⟩
  · intro β env self e x hp hne
    cases hl : env.parseListOrDefault (PVal.str ("512,512,512")) (PVal.int 3) (PVal.int 256) with
    | nil => exact absurd hl hne
    | cons a t =>
      unfold infer_conv_block infer_embed_dropout
      rw [hp]
      simp only []
      rw [show pyLookup default_params ("embedding_dropout_keep_prob")
            = Except.ok (PVal.num (0.8 : ℚ)) from rfl]
      rw [except_bind_ok, except_pure_bind]
      rw [show pyLookup default_params ("cnn.layers") = Except.ok (PVal.int 3) from rfl]
      rw [except_bind_ok]
      rw [show pyGtZero (PVal.int 3) = Except.ok true from rfl]
      rw [except_bind_ok, if_pos rfl]
      rw [show pyLookup default_params ("cnn.nhids")
            = Except.ok (PVal.str ("512,512,512")) from rfl]
      rw [except_bind_ok]
      rw [show pyLookup default_params ("cnn.nhid_default")
            = Except.ok (PVal.int 256) from rfl]
      rw [except_bind_ok]
      rw [show pyLookup default_params ("cnn.kwidths")
            = Except.ok (PVal.str ("3,3,3")) from rfl]
      rw [except_bind_ok]
      rw [show pyLookup default_params ("cnn.kwidth_default")
            = Except.ok (PVal.int 3) from rfl]
      rw [except_bind_ok, hl]
      rw [show pyIndexList (a :: t) 0 = Except.ok a from rfl]
      rw [except_bind_ok, except_bind_ok]
      rw [show pyUnbound TExpr ("inputs")
            = Except.error (PyError.nameError ("inputs")) from rfl]
      rw [except_bind_error]
  · intro β env self cfg te st v hv ht
    unfold create_init_state
    simp only []
    rw [hv, except_bind_ok, if_neg (by simp [ht])]
    rw [show pyUnbound TExpr ("positions_embed")
          = Except.error (PyError.nameError ("positions_embed")) from rfl]
    rw [except_bind_error]

/-- Witness for C3 (amended) at concrete decoders. -/
theorem c3_unbound_names_witness :
    (infer_conv_block envU selfInferDefault (TExpr.input ("enc")) (TExpr.input ("x")) =
      Except.error (PyError.nameError ("inputs"))) ∧
    (step envU selfTrainNoCnn 0 (TExpr.input ("i")) () =
      Except.error (PyError.nameError ("enc_output"))) ∧
    (create_init_state envU selfTrainNoCnn (BSConfig.mk 3) (TExpr.input ("te"))
        (TExpr.input ("st")) =
      Except.error (PyError.nameError ("positions_embed"))) :=
  ⟨(c3_unbound_names).1 Unit envU selfInferDefault (TExpr.input ("enc")) (TExpr.input ("x"))
      rfl (by decide),
   (c3_unbound_names).2.1 Unit envU selfTrainNoCnn 0 (TExpr.input ("i")) (),
   (c3_unbound_names).2.2 Unit envU selfTrainNoCnn (BSConfig.mk 3) (TExpr.input ("te"))
      (TExpr.input ("st")) (PVal.bool false) rfl rfl⟩

/-- C3 counterexample: an invocation of `infer_conv_block` with
`cnn.layers = 0` raises TypeError (the `shape(-1)` call on line 223), not
NameError, refuting the claim that every invocation raises NameError. -/
theorem c3_counterexample :
    infer_conv_block envU selfInferNoCnn (TExpr.input ("enc")) (TExpr.input ("x")) =
      Except.error (PyError.typeError ("list object is not callable")) ∧
    isNameErrorResult
      (infer_conv_block envU selfInferNoCnn (TExpr.input ("enc")) (TExpr.input ("x"))) =
      false :=
  ⟨rfl, rfl⟩

/-- C4 (amended): the signature mismatches are real — `next_inputs` requires
`time`, `outputs`, `state` and `sample_ids` but `step` provides only
`sample_ids` (a TypeError if that call were reached), and `create_init_state`
calls the combiner with one argument where `conv_decoder_train` correctly
passes two, which for the default two-argument `tensorflow.add` is a
TypeError — but every call of `step` stops earlier, with a NameError on the
unbound `enc_output`, so `step` never raises the TypeError itself. -/
theorem c4_signature_mismatches :
    pyKwBindOk next_inputs_required_params step_next_inputs_kwargs = false ∧
    (∀ a : TExpr, pyCallFn tensorflowAdd [a] =
      Except.error (PyError.typeError ("wrong number of arguments"))) ∧
    (∀ a b : TExpr, pyCallFn tensorflowAdd [a, b] = Except.ok (TExpr.add a b)) ∧
    (∀ (β : Type) (env : TFEnv β) (self : ConvDecoder) (cfg : BSConfig) (te st : TExpr)
      (v np : PVal),
      self.combiner_fn = tensorflowAdd →
      pyLookup self.params ("position_embeddings.enable") = Except.ok v →
      truthy v = true →
      pyLookup self.params ("position_embeddings.num_positions") = Except.ok np →
      create_init_state env self cfg te st =
        Except.error (PyError.typeError ("wrong number of arguments"))) ∧
    (∀ (β : Type) (env : TFEnv β) (self : ConvDecoder) (t : Int) (i : TExpr) (b : β),
      step env self t i b = Except.error (PyError.nameError ("enc_output"))) := by
  refine ⟨by decide, fun a => rfl, fun a b => rfl, ?_,
    fun β env self t i b => step_always_nameError env self t i b⟩
  intro β env self cfg te st v np hcomb hv ht hnp
  unfold create_init_state
  simp only []
  rw [hv, except_bind_ok, if_pos ht, hnp, except_bind_ok, except_pure_bind, hcomb]
  have hone : ∀ y : TExpr, pyCallFn tensorflowAdd [y] =
      Except.error (PyError.typeError ("wrong number of arguments")) := fun y => rfl
  simp only [hone, except_bind_error]

/-- Witness for C4 (amended): the one-argument combiner call in
`create_init_state` raises TypeError under `default_params`. -/
theorem c4_signature_mismatches_witness :
    create_init_state envU selfInferDefault (BSConfig.mk 3) (TExpr.input ("te"))
        (TExpr.input ("st")) =
      Except.error (PyError.typeError ("wrong number of arguments")) :=
  (c4_signature_mismatches).2.2.2.1 Unit envU selfInferDefault (BSConfig.mk 3)
    (TExpr.input ("te")) (TExpr.input ("st")) (PVal.bool true) (PVal.int 100)
    rfl rfl rfl rfl

/-- C4 counterexample: a concrete call of `step` raises NameError on
`enc_output`, not a TypeError, refuting the claim that every call to `step`
raises a TypeError. -/
theorem c4_counterexample :
    step envU selfInferDefault 0 (TExpr.input ("i")) () =
      Except.error (PyError.nameError ("enc_output")) ∧
    isTypeErrorResult (step envU selfInferDefault 0 (TExpr.input ("i")) ()) = false :=
  ⟨rfl, rfl⟩

theorem conv_decoder_train_embed_enabled {β : Type} (env : TFEnv β) (self : ConvDecoder)
    (L sl : TExpr) (v np : PVal)
    (hv : pyLookup self.params ("position_embeddings.enable") = Except.ok v)
    (ht : truthy v = true)
    (hnp : pyLookup self.params ("position_embeddings.num_positions") = Except.ok np) :
    conv_decoder_train_embed env self L sl =
      pyCallFn self.combiner_fn
        [L, TExpr.createPositionEmbedding (env.embedSizeOf L) np sl (TExpr.shapeDim L 1)] := by
  unfold conv_decoder_train_embed
  simp only []
  rw [hv, except_bind_ok, if_pos ht, hnp, except_bind_ok]

theorem conv_decoder_train_embed_disabled {β : Type} (env : TFEnv β) (self : ConvDecoder)
    (L sl : TExpr) (v : PVal)
    (hv : pyLookup self.params ("position_embeddings.enable") = Except.ok v)
    (ht : truthy v = false) :
    conv_decoder_train_embed env self L sl = pure L := by
  unfold conv_decoder_train_embed
  simp only []
  rw [hv, except_bind_ok, if_neg (by simp [ht])]

/-- C6: with position embeddings enabled, `conv_decoder_train` combines the
labels, via the configured combiner, with the position embedding built from
the embedding dimension, `num_positions`, the sequence lengths and the label
time extent of the label tensor, before the dropout/convolution pipeline; with them
disabled, the labels enter the pipeline unchanged; the default combiner
`tensorflow.add` adds its two arguments. -/
theorem c6_position_embedding_combine :
    (∀ (β : Type) (env : TFEnv β) (self decoder : ConvDecoder) (e L sl : TExpr) (v np : PVal),
      pyLookup self.params ("position_embeddings.enable") = Except.ok v →
      truthy v = true →
      pyLookup self.params ("position_embeddings.num_positions") = Except.ok np →
      conv_decoder_train env self decoder e L sl =
        pyCallFn self.combiner_fn
          [L, TExpr.createPositionEmbedding (env.embedSizeOf L) np sl
            (TExpr.shapeDim L 1)] >>=
          conv_decoder_train_core env self e) ∧
    (∀ (β : Type) (env : TFEnv β) (self decoder : ConvDecoder) (e L sl : TExpr) (v : PVal),
      pyLookup self.params ("position_embeddings.enable") = Except.ok v →
      truthy v = false →
      conv_decoder_train env self decoder e L sl =
        conv_decoder_train_core env self e L) ∧
    (∀ a b : TExpr, pyCallFn tensorflowAdd [a, b] = Except.ok (TExpr.add a b)) := by
  refine ⟨?_, ?_, fun a b => rfl⟩
  · intro β env self decoder e L sl v np hv ht hnp
    rw [conv_decoder_train_split,
      conv_decoder_train_embed_enabled env self L sl v np hv ht hnp]
  · intro β env self decoder e L sl v hv ht
    rw [conv_decoder_train_split,
      conv_decoder_train_embed_disabled env self L sl v hv ht, except_pure_bind]

/-- Witness for C6 at concrete decoders, one with position embeddings on and
one with them off. -/
theorem c6_position_embedding_combine_witness :
    (conv_decoder_train envU selfTrainDefault selfTrainDefault (TExpr.input ("e"))
        (TExpr.input ("l")) (TExpr.input ("sl")) =
      pyCallFn selfTrainDefault.combiner_fn
        [TExpr.input ("l"),
         TExpr.createPositionEmbedding (envU.embedSizeOf (TExpr.input ("l")))
           (PVal.int 100) (TExpr.input ("sl")) (TExpr.shapeDim (TExpr.input ("l")) 1)] >>=
        conv_decoder_train_core envU selfTrainDefault (TExpr.input ("e"))) ∧
    (conv_decoder_train envU selfTrainNoCnn selfTrainNoCnn (TExpr.input ("e"))
        (TExpr.input ("l")) (TExpr.input ("sl")) =
      conv_decoder_train_core envU selfTrainNoCnn (TExpr.input ("e")) (TExpr.input ("l"))) :=
  ⟨(c6_position_embedding_combine).1 Unit envU selfTrainDefault selfTrainDefault
      (TExpr.input ("e")) (TExpr.input ("l")) (TExpr.input ("sl")) (PVal.bool true)
      (PVal.int 100) rfl rfl rfl,
   (c6_position_embedding_combine).2.1 Unit envU selfTrainNoCnn selfTrainNoCnn
      (TExpr.input ("e")) (TExpr.input ("l")) (TExpr.input ("sl")) (PVal.bool false)
      rfl rfl⟩

theorem conv_decoder_train_embed_flags {β : Type} (env : TFEnv β) (self : ConvDecoder)
    (L sl L2 : TExpr) (hcomb : self.combiner_fn = tensorflowAdd)
    (hL : dropoutFlags L = []) (hsl : dropoutFlags sl = [])
    (h : conv_decoder_train_embed env self L sl = Except.ok L2) :
    dropoutFlags L2 = [] := by
  unfold conv_decoder_train_embed at h
  simp only [] at h
  cases h1 : pyLookup self.params ("position_embeddings.enable") with
  | error er => rw [h1, except_bind_error] at h; exact absurd h (by simp)
  | ok v =>
  rw [h1, except_bind_ok] at h
  by_cases ht : truthy v = true
  · rw [if_pos ht] at h
    cases h2 : pyLookup self.params ("position_embeddings.num_positions") with
    | error er => rw [h2, except_bind_error] at h; exact absurd h (by simp)
    | ok np =>
    rw [h2, except_bind_ok, hcomb] at h
    rw [show pyCallFn tensorflowAdd
          [L, TExpr.createPositionEmbedding (env.embedSizeOf L) np sl (TExpr.shapeDim L 1)] =
        Except.ok (TExpr.add L
          (TExpr.createPositionEmbedding (env.embedSizeOf L) np sl (TExpr.shapeDim L 1)))
        from rfl, Except.ok.injEq] at h
    rw [← h]
    simp [dropoutFlags, hL, hsl]
  · rw [if_neg ht] at h
    rw [show (pure L : Except PyError TExpr) = Except.ok L from rfl, Except.ok.injEq] at h
    rw [← h]
    exact hL

/-- C9: dropout activation is inverted between the two paths — every dropout
node `conv_decoder_train` adds to its graph has `is_training` exactly when
the mode is TRAIN, while the dropout layers `infer_conv_block` applies (its
embedding dropout and its output dropout) have `is_training` exactly when
the mode is INFER; and an active dropout layer is mask-dependent (two runs
can differ) while an inactive one is deterministic. -/
theorem c9_dropout_mode_inversion :
    (∀ (β : Type) (env : TFEnv β) (self decoder : ConvDecoder) (e L sl : TExpr)
      (out : ConvDecoderOutput),
      self.combiner_fn = tensorflowAdd →
      dropoutFlags e = [] → dropoutFlags L = [] → dropoutFlags sl = [] →
      conv_decoder_train env self decoder e L sl = Except.ok out →
      (dropoutFlags out.logits).all (fun b => b == (self.mode == Mode.TRAIN)) = true) ∧
    (∀ (self : ConvDecoder) (x : TExpr) (k : PVal),
      pyLookup self.params ("embedding_dropout_keep_prob") = Except.ok k →
      infer_embed_dropout self x =
        Except.ok (TExpr.dropout x k (self.mode == Mode.INFER))) ∧
    (∀ (self : ConvDecoder) (x : TExpr) (k : PVal),
      pyLookup self.params ("out_dropout_keep_prob") = Except.ok k →
      infer_out_dropout self x =
        Except.ok (TExpr.dropout x k (self.mode == Mode.INFER))) ∧
    runDropout 1 true maskKeepAll onesVec 0 ≠ runDropout 1 true maskDropAll onesVec 0 ∧
    (∀ (k : ℚ) (m m2 : Nat → Bool) (x : Nat → ℚ) (i : Nat),
      runDropout k false m x i = runDropout k false m2 x i) := by
  refine ⟨?_, ?_, ?_,
    by simp [runDropout, maskKeepAll, maskDropAll, onesVec], fun k m m2 x i => rfl⟩
  · intro β env self decoder e L sl out hcomb he hL hsl h
    rw [conv_decoder_train_split] at h
    cases hsp : conv_decoder_train_embed env self L sl with
    | error er => rw [hsp, except_bind_error] at h; exact absurd h (by simp)
    | ok L2 =>
    rw [hsp, except_bind_ok] at h
    have hfl2 := conv_decoder_train_embed_flags env self L sl L2 hcomb hL hsl hsp
    obtain ⟨keepE, noutV, keepO, nl, h1, h2, h3, hnl, hlog, hids⟩ :=
      conv_decoder_train_core_shape env self e L2 out h
    rw [hlog]
    rcases hnl with hnl | ⟨nhid0, nh, kw, hnl⟩ <;> rw [hnl] <;>
      simp [dropoutFlags, hfl2, he]
  · intro self x k hk
    unfold infer_embed_dropout
    rw [hk, except_bind_ok]
    rfl
  · intro self x k hk
    unfold infer_out_dropout
    rw [hk, except_bind_ok]
    rfl

/-- Witness for C9: a concrete TRAIN-mode training run whose dropout flags
all equal `true`, and the two INFER-mode dropout layers of the inference
path at a concrete decoder. -/
theorem c9_dropout_mode_inversion_witness :
    ((dropoutFlags trainOutNoCnn.logits).all
      (fun b => b == (selfTrainNoCnn.mode == Mode.TRAIN)) = true) ∧
    (infer_embed_dropout selfInferDefault (TExpr.input ("x")) =
      Except.ok (TExpr.dropout (TExpr.input ("x")) (PVal.num (0.8 : ℚ))
        (selfInferDefault.mode == Mode.INFER))) ∧
    (infer_out_dropout selfInferDefault (TExpr.input ("y")) =
      Except.ok (TExpr.dropout (TExpr.input ("y")) (PVal.num (0.8 : ℚ))
        (selfInferDefault.mode == Mode.INFER))) :=
  ⟨(c9_dropout_mode_inversion).1 Unit envU selfTrainNoCnn selfTrainNoCnn (TExpr.input ("e"))
      (TExpr.input ("labels")) (TExpr.input ("sl")) trainOutNoCnn rfl rfl rfl rfl rfl,
   (c9_dropout_mode_inversion).2.1 selfInferDefault (TExpr.input ("x"))
      (PVal.num (0.8 : ℚ)) rfl,
   (c9_dropout_mode_inversion).2.2.1 selfInferDefault (TExpr.input ("y"))
      (PVal.num (0.8 : ℚ)) rfl⟩
